import Mathlib

/-!
Verification of the authorization core of a school records system.

The definitions below are a shallow embedding of the permission layer:
the permission classes in `core/permissions.py`, the per-viewset wiring
and `get_queryset` scope filters in `core/views.py`, and the group/role
assignment helpers.  Records carry only the fields the authorization
logic reads; foreign keys are compared by primary key, as the ORM does.
-/

namespace SchoolMgmt

/-- Django model `Class` (core/models.py): only the primary key and the
nullable `class_teacher` foreign key (a teacher primary key) matter to
authorization. -/
structure ClassRec where
  cid : Nat
  class_teacher : Option Nat
deriving DecidableEq

/-- Django model `Student`: primary key, owning `user` id and the
`current_class` foreign key. -/
structure StudentRec where
  sid : Nat
  user : Nat
  current_class : ClassRec
deriving DecidableEq

/-- Django model `ClassSubject`: the (class, subject, teacher) binding;
`teacher` is the related name `teaching_assignments` on Teacher. -/
structure ClassSubjectRec where
  csid : Nat
  class_instance : ClassRec
  subject : Nat
  teacher : Nat
deriving DecidableEq

/-- Django model `Attendance`: the referenced student and the nullable
`class_subject` foreign key. -/
structure AttendanceRec where
  student : StudentRec
  class_subject : Option ClassSubjectRec
deriving DecidableEq

/-- Django model `Assessment`: its `class_subject` and the publication
flag. -/
structure AssessmentRec where
  class_subject : ClassSubjectRec
  is_published : Bool
deriving DecidableEq

/-- Django model `Grade`: the graded student and the assessment. -/
structure GradeRec where
  student : StudentRec
  assessment : AssessmentRec
deriving DecidableEq

/-- The relationship store consulted by reverse lookups: the table of
`ClassSubject` rows (a teacher's `teaching_assignments` are the rows
whose `teacher` field is that teacher). -/
structure DB where
  class_subjects : List ClassSubjectRec
deriving DecidableEq

/-- The request identity (`request.user`): authentication status, the
`is_staff` flag, and the optional one-to-one `teacher_profile` /
`student_profile` reverse links.  `hasattr(user, p)` is `Option.isSome`
of the link. -/
structure UserCtx where
  is_authenticated : Bool
  is_staff : Bool
  teacher_profile : Option Nat
  student_profile : Option StudentRec
  user_id : Nat
deriving DecidableEq

/-- Read = DRF SAFE_METHODS; write = create/update/delete. -/
inductive Action where
  | read
  | write
deriving DecidableEq

/-- The nine resource families served by the viewsets in core/views.py. -/
inductive RKind where
  | school
  | department
  | subject
  | teacher
  | classroom
  | classSubject
  | timetable
  | student
  | attendance
  | assessment
  | grade
deriving DecidableEq

/-- Embeds `teacher.teaching_assignments.filter(class_instance=c).exists()`:
some ClassSubject row binds teacher `t` to class `c` (pk comparison). -/
def teachingAssignmentExists (db : DB) (t : Nat) (c : ClassRec) : Bool :=
  db.class_subjects.any (fun cs => cs.teacher == t && cs.class_instance.cid == c.cid)

/-- Embeds `IsAdminUser.has_permission` (core/permissions.py). -/
def isAdminUser_has_permission (u : UserCtx) : Bool :=
  u.is_authenticated && u.is_staff

/-- Embeds `rest_framework.permissions.IsAuthenticated.has_permission`. -/
def isAuthenticated_has_permission (u : UserCtx) : Bool :=
  u.is_authenticated

/-- Embeds `CanManageAttendance.has_permission` (core/permissions.py): admins
and teachers can manage attendance; no object-level hook exists. -/
def canManageAttendance_has_permission (u : UserCtx) : Bool :=
  u.is_authenticated && (u.is_staff || u.teacher_profile.isSome)

/-- Embeds `CanManageGrades.has_permission` (core/permissions.py). -/
def canManageGrades_has_permission (u : UserCtx) : Bool :=
  u.is_authenticated && (u.is_staff || u.teacher_profile.isSome)

/-- Embeds `CanManageGrades.has_object_permission` on a Grade target: reads
pass; on writes a teacher-linked caller is judged by the grade's
assessment's class-subject teacher (the `hasattr(obj, 'assessment')`
branch), anyone else by `is_staff`. -/
def canManageGrades_has_object_permission (u : UserCtx) (act : Action) (g : GradeRec) : Bool :=
  match act with
  | .read => true
  | .write =>
    match u.teacher_profile with
    | some t => g.assessment.class_subject.teacher == t
    | none => u.is_staff

/-- Embeds `CanViewStudentData.has_permission`: any authenticated caller. -/
def canViewStudentData_has_permission (u : UserCtx) : Bool :=
  u.is_authenticated

/-- Embeds `CanViewStudentData.has_object_permission` on a Student target:
staff first, then the student self-ownership branch, then the teacher
scope branch (class teacher of, or teaching assignment in, the
student's current class), else deny. -/
def canViewStudentData_has_object_permission (db : DB) (u : UserCtx) (s : StudentRec) : Bool :=
  if u.is_staff then true
  else if u.student_profile.isSome then s.user == u.user_id
  else
    match u.teacher_profile with
    | some t =>
        s.current_class.class_teacher == some t || teachingAssignmentExists db t s.current_class
    | none => false

/-- Embeds the `StudentViewSet.get_queryset` membership predicate (core/views.py):
staff see all; a student-linked caller sees rows with `user=user`; a
teacher-linked caller sees rows whose current class they class-teach or
hold a class-subject assignment in; otherwise none. -/
def studentInQueryset (db : DB) (u : UserCtx) (s : StudentRec) : Bool :=
  if u.is_staff then true
  else if u.student_profile.isSome then s.user == u.user_id
  else
    match u.teacher_profile with
    | some t =>
        s.current_class.class_teacher == some t || teachingAssignmentExists db t s.current_class
    | none => false

/-- Embeds the `AttendanceViewSet.get_queryset` membership predicate: staff see
all; a teacher-linked caller sees rows whose student's current class
they class-teach or whose class-subject they teach; otherwise none. -/
def attendanceInQueryset (u : UserCtx) (a : AttendanceRec) : Bool :=
  if u.is_staff then true
  else
    match u.teacher_profile with
    | some t =>
        a.student.current_class.class_teacher == some t ||
        (match a.class_subject with
         | some cs => cs.teacher == t
         | none => false)
    | none => false

/-- Embeds the `AssessmentViewSet.get_queryset` membership predicate: staff see
all; teacher-linked callers see their class-subjects' assessments;
student-linked callers see published assessments of their current
class; every other caller falls through to the unfiltered queryset. -/
def assessmentInQueryset (u : UserCtx) (a : AssessmentRec) : Bool :=
  if u.is_staff then true
  else
    match u.teacher_profile with
    | some t => a.class_subject.teacher == t
    | none =>
      match u.student_profile with
      | some sp => a.class_subject.class_instance.cid == sp.current_class.cid && a.is_published
      | none => true

/-- Embeds the `GradeViewSet.get_queryset` membership predicate: staff see all;
teacher-linked callers see grades of their class-subjects' assessments;
student-linked callers see their own grades; otherwise none. -/
def gradeInQueryset (u : UserCtx) (g : GradeRec) : Bool :=
  if u.is_staff then true
  else
    match u.teacher_profile with
    | some t => g.assessment.class_subject.teacher == t
    | none =>
      match u.student_profile with
      | some sp => g.student.sid == sp.sid
      | none => false

/-- Target record type of each resource kind; kinds with no
relationship-dependent checks carry no data. -/
@[reducible] def TargetOf : RKind → Type
  | .student => StudentRec
  | .attendance => AttendanceRec
  | .assessment => AssessmentRec
  | .grade => GradeRec
  | _ => Unit

/-- Queryset membership by kind; viewsets without a `get_queryset`
override expose the full table. -/
def inQueryset (db : DB) (u : UserCtx) : (k : RKind) → TargetOf k → Bool
  | .student, s => studentInQueryset db u s
  | .attendance, a => attendanceInQueryset u a
  | .assessment, a => assessmentInQueryset u a
  | .grade, g => gradeInQueryset u g
  | .school, _ => true
  | .department, _ => true
  | .subject, _ => true
  | .teacher, _ => true
  | .classroom, _ => true
  | .classSubject, _ => true
  | .timetable, _ => true

/-- Coarse check `permits`: the `has_permission` of the permission
classes each viewset wires per action (`permission_classes` and
`get_permissions` in core/views.py). -/
def permits (u : UserCtx) (k : RKind) (act : Action) : Bool :=
  match k, act with
  | .school, _ => isAdminUser_has_permission u
  | .department, _ => isAdminUser_has_permission u
  | .subject, .read => isAuthenticated_has_permission u
  | .subject, .write => isAdminUser_has_permission u
  | .teacher, .read => isAuthenticated_has_permission u
  | .teacher, .write => isAdminUser_has_permission u
  | .classroom, .read => isAuthenticated_has_permission u
  | .classroom, .write => isAdminUser_has_permission u
  | .classSubject, .read => isAuthenticated_has_permission u
  | .classSubject, .write => isAdminUser_has_permission u
  | .timetable, .read => isAuthenticated_has_permission u
  | .timetable, .write => isAdminUser_has_permission u
  | .student, .read => canViewStudentData_has_permission u
  | .student, .write => isAdminUser_has_permission u
  | .attendance, _ => canManageAttendance_has_permission u
  | .assessment, .read => isAuthenticated_has_permission u
  | .assessment, .write => isAdminUser_has_permission u
  | .grade, _ => canManageGrades_has_permission u

/-- Object-level hook of the permission class wired for the action;
classes without `has_object_permission` inherit the default `True`. -/
def objectCheck (db : DB) (u : UserCtx) : (k : RKind) → Action → TargetOf k → Bool
  | .student, .read, s => canViewStudentData_has_object_permission db u s
  | .student, .write, _ => true
  | .grade, act, g => canManageGrades_has_object_permission u act g
  | .school, _, _ => true
  | .department, _, _ => true
  | .subject, _, _ => true
  | .teacher, _, _ => true
  | .classroom, _, _ => true
  | .classSubject, _, _ => true
  | .timetable, _, _ => true
  | .attendance, _, _ => true
  | .assessment, _, _ => true

/-- Fine check `permits_on`: DRF evaluates `has_permission`, resolves
the target through the (possibly filtered) queryset, then runs
`has_object_permission`; all three must pass. -/
def permitsOn (db : DB) (u : UserCtx) (k : RKind) (act : Action) (tgt : TargetOf k) : Bool :=
  permits u k act && inQueryset db u k tgt && objectCheck db u k act tgt

/-- Collection access `filter_collection`: a caller failing the coarse
read check is rejected outright (sees nothing); otherwise the
collection is narrowed by the `get_queryset` membership predicate. -/
def filterCollection (db : DB) (u : UserCtx) (k : RKind) (l : List (TargetOf k)) :
    List (TargetOf k) :=
  if permits u k .read then l.filter (fun t => inQueryset db u k t) else []

/-- Modelled from the spec (section 4.1, Relationship Resolver), used
only to state the spec-side scope predicate of claims about teacher
scope: a class is in `resolve_teacher_scope(t)` when the teacher is its
class teacher or holds a teaching assignment in it, for any year. -/
def classInTeacherScope (db : DB) (t : Nat) (c : ClassRec) : Bool :=
  c.class_teacher == some t || teachingAssignmentExists db t c

/-- Group name created by `create_user_groups` (core/permissions.py). -/
def adminsGroupName : String := "School Administrators"

/-- Group name created by `create_user_groups`. -/
def teachersGroupName : String := "Teachers"

/-- Group name created by `create_user_groups`. -/
def studentsGroupName : String := "Students"

/-- Group name created by `create_user_groups`. -/
def parentsGroupName : String := "Parents"

/-- The four role group names created by `create_user_groups`
(core/permissions.py). -/
def schoolGroupNames : List String :=
  [adminsGroupName, teachersGroupName, studentsGroupName, parentsGroupName]

/-- Role tag accepted by `assign_user_to_group`. -/
def adminRoleTag : String := "admin"

/-- Role tag accepted by `assign_user_to_group`. -/
def teacherRoleTag : String := "teacher"

/-- Role tag accepted by `assign_user_to_group`. -/
def studentRoleTag : String := "student"

/-- Role tag accepted by `assign_user_to_group`. -/
def parentRoleTag : String := "parent"

/-- The `groups` dictionary of `create_user_groups` viewed as a lookup:
`role in groups` succeeds exactly on the four role keys, yielding the
corresponding group. -/
def roleGroupName (role : String) : Option String :=
  if role = adminRoleTag then some adminsGroupName
  else if role = teacherRoleTag then some teachersGroupName
  else if role = studentRoleTag then some studentsGroupName
  else if role = parentRoleTag then some parentsGroupName
  else none

/-- A Django `User` as the role-assignment code sees it: the set of
group names it belongs to and the `is_staff` flag. -/
structure GUser where
  groups : List String
  is_staff : Bool
deriving DecidableEq

/-- The removal loop of `assign_user_to_group`: `user.groups.remove(g)`
for each of the four school groups (a no-op on groups the user is not
in). -/
def removeSchoolGroups (gs : List String) : List String :=
  gs.filter (fun g => decide (g ∉ schoolGroupNames))

/-- Embeds `user.groups.add(g)`: many-to-many add, a no-op when already a
member. -/
def addGroup (gs : List String) (g : String) : List String :=
  if g ∈ gs then gs else gs ++ [g]

/-- Embeds `assign_user_to_group` (core/permissions.py): on a recognized role,
remove the caller from all four school groups, add the requested one,
and for the admin role additionally set `is_staff`; on an unrecognized
role return `False` with no mutation. -/
def assign_user_to_group (u : GUser) (role : String) : Bool × GUser :=
  match roleGroupName role with
  | some g =>
      (true,
       { groups := addGroup (removeSchoolGroups u.groups) g,
         is_staff := if role = adminRoleTag then true else u.is_staff })
  | none => (false, u)

/-- Sample class whose class teacher is teacher 10. -/
def kls1 : ClassRec := { cid := 1, class_teacher := some 10 }

/-- Sample class with no class teacher. -/
def kls2 : ClassRec := { cid := 2, class_teacher := none }

/-- Sample class with no class teacher. -/
def kls5 : ClassRec := { cid := 5, class_teacher := none }

/-- Sample student enrolled in `kls1`. -/
def stu1 : StudentRec := { sid := 100, user := 500, current_class := kls1 }

/-- Sample student enrolled in `kls5`. -/
def stu5 : StudentRec := { sid := 105, user := 505, current_class := kls5 }

/-- Sample student profile enrolled in `kls2`. -/
def stuP : StudentRec := { sid := 200, user := 600, current_class := kls2 }

/-- Class-subject of `kls2` taught by teacher 11. -/
def cs2 : ClassSubjectRec := { csid := 2, class_instance := kls2, subject := 7, teacher := 11 }

/-- Teaching assignment of teacher 10 in `kls5`. -/
def csB : ClassSubjectRec := { csid := 3, class_instance := kls5, subject := 1, teacher := 10 }

/-- Class-subject of `kls5` taught by teacher 11. -/
def csB2 : ClassSubjectRec := { csid := 4, class_instance := kls5, subject := 2, teacher := 11 }

/-- Class-subject of `kls2` taught by teacher 11 (for assessments). -/
def csP : ClassSubjectRec := { csid := 9, class_instance := kls2, subject := 3, teacher := 11 }

/-- Class-subject of `kls1` taught by teacher 13. -/
def csY : ClassSubjectRec := { csid := 8, class_instance := kls1, subject := 4, teacher := 13 }

/-- Empty relationship store. -/
def db0 : DB := { class_subjects := [] }

/-- Store holding only `cs2`. -/
def dbA : DB := { class_subjects := [cs2] }

/-- Store holding teacher 10's assignment `csB` and `csB2`. -/
def dbB : DB := { class_subjects := [csB, csB2] }

/-- Attendance of `stu1` under class-subject `cs2`. -/
def att0 : AttendanceRec := { student := stu1, class_subject := some cs2 }

/-- Attendance of `stu5` under class-subject `csB2`. -/
def attB : AttendanceRec := { student := stu5, class_subject := some csB2 }

/-- Unpublished assessment under `cs2`. -/
def asmUnpub : AssessmentRec := { class_subject := cs2, is_published := false }

/-- Published assessment in `stuP`'s class. -/
def asmPub : AssessmentRec := { class_subject := csP, is_published := true }

/-- Grade of `stu1` on an assessment taught by teacher 11. -/
def grd0 : GradeRec :=
  { student := stu1, assessment := { class_subject := cs2, is_published := true } }

/-- Grade of `stu1` on an assessment taught by teacher 13. -/
def grdY : GradeRec :=
  { student := stu1, assessment := { class_subject := csY, is_published := true } }

/-- Unauthenticated caller. -/
def anonU : UserCtx :=
  { is_authenticated := false, is_staff := false, teacher_profile := none,
    student_profile := none, user_id := 0 }

/-- Administrator also holding teacher link 10. -/
def adminTU : UserCtx :=
  { is_authenticated := true, is_staff := true, teacher_profile := some 10,
    student_profile := none, user_id := 1 }

/-- Administrator also holding teacher link 12. -/
def adminTU2 : UserCtx :=
  { is_authenticated := true, is_staff := true, teacher_profile := some 12,
    student_profile := none, user_id := 4 }

/-- Plain administrator with no role link. -/
def adminU : UserCtx :=
  { is_authenticated := true, is_staff := true, teacher_profile := none,
    student_profile := none, user_id := 9 }

/-- Teacher 10's request identity. -/
def teacherU : UserCtx :=
  { is_authenticated := true, is_staff := false, teacher_profile := some 10,
    student_profile := none, user_id := 2 }

/-- Authenticated caller with no role link at all. -/
def parentU : UserCtx :=
  { is_authenticated := true, is_staff := false, teacher_profile := none,
    student_profile := none, user_id := 3 }

/-- Student `stuP`'s request identity. -/
def studentU : UserCtx :=
  { is_authenticated := true, is_staff := false, teacher_profile := none,
    student_profile := some stuP, user_id := 600 }

/-- Claim C1: an identity with `is_authenticated = false` is denied by
every coarse check `permits` and every fine check `permits_on`, for
every resource kind, every action and every target record. -/
theorem unauthenticated_all_denied (db : DB) (u : UserCtx)
    (h : u.is_authenticated = false) (k : RKind) (act : Action) :
    permits u k act = false ∧ ∀ tgt : TargetOf k, permitsOn db u k act tgt = false := by
  have hp : permits u k act = false := by
    cases k <;> cases act <;>
      simp [permits, isAdminUser_has_permission, isAuthenticated_has_permission,
            canManageAttendance_has_permission, canManageGrades_has_permission,
            canViewStudentData_has_permission, h]
  exact ⟨hp, fun tgt => by simp [permitsOn, hp]⟩

/-- Witness for C1: the unauthenticated caller `anonU` is denied a
concrete coarse and fine grade-write check. -/
theorem unauthenticated_all_denied_witness :
    permits anonU RKind.grade Action.write = false ∧
    permitsOn db0 anonU RKind.grade Action.write grd0 = false := by
  have h := unauthenticated_all_denied db0 anonU rfl RKind.grade Action.write
  exact ⟨h.1, h.2 grd0⟩

/-- Claim C3 (amended): a write on an attendance record is allowed
exactly when the caller is authenticated and either is staff or is a
teacher who class-teaches the record's student's current class or
teaches the record's class-subject; in particular any staff caller
passes, and for other teachers the anchor is the student's class
teacher or the class-subject's own teacher, not the full resolved
scope. -/
theorem attendance_write_characterization (db : DB) (u : UserCtx) (a : AttendanceRec) :
    permitsOn db u RKind.attendance Action.write a =
      (u.is_authenticated &&
        (u.is_staff ||
          (match u.teacher_profile with
           | some t =>
               a.student.current_class.class_teacher == some t ||
               (match a.class_subject with
                | some cs => cs.teacher == t
                | none => false)
           | none => false))) := by
  rcases u with ⟨auth, staff, tp, sp, uid⟩
  cases auth <;> cases staff <;> cases tp <;>
    simp [permitsOn, permits, inQueryset, objectCheck,
          canManageAttendance_has_permission, attendanceInQueryset]

/-- Counterexample to claim C3 as stated: teacher 10, not an
administrator, is allowed to write attendance record `att0` even
though the class of `att0`'s class-subject is not in teacher 10's
resolved scope. -/
theorem attendance_write_scope_claim_false :
    permitsOn dbA teacherU RKind.attendance Action.write att0 = true ∧
    teacherU.is_authenticated = true ∧
    teacherU.is_staff = false ∧
    teacherU.teacher_profile = some 10 ∧
    att0.class_subject = some cs2 ∧
    classInTeacherScope dbA 10 cs2.class_instance = false := by decide

/-- Claim C5 (amended): a write on a grade record is allowed exactly
when the caller is authenticated and either holds a teacher link equal
to the teacher of the grade's assessment's class-subject, or holds no
teacher link and is staff; a staff caller who also holds a foreign
teacher link is denied. -/
theorem grade_write_characterization (db : DB) (u : UserCtx) (g : GradeRec) :
    permitsOn db u RKind.grade Action.write g =
      (u.is_authenticated &&
        (match u.teacher_profile with
         | some t => g.assessment.class_subject.teacher == t
         | none => u.is_staff)) := by
  rcases u with ⟨auth, staff, tp, sp, uid⟩
  cases auth <;> cases staff <;> cases tp <;>
    simp [permitsOn, permits, inQueryset, objectCheck,
          canManageGrades_has_permission, canManageGrades_has_object_permission,
          gradeInQueryset]

/-- Counterexample to claim C5 as stated: `adminTU2` is an
administrator, yet its grade write on `grdY` (whose assessment's
class-subject teacher differs from its own teacher link) is denied. -/
theorem grade_write_admin_claim_false :
    adminTU2.is_authenticated = true ∧ adminTU2.is_staff = true ∧
    permitsOn db0 adminTU2 RKind.grade Action.write grdY = false := by decide

/-- Claim C6: a student identity reads an assessment exactly when the
assessment is published and its class equals the student's current
class. -/
theorem student_assessment_read_characterization (db : DB) (u : UserCtx)
    (sp : StudentRec) (a : AssessmentRec)
    (hauth : u.is_authenticated = true) (hstaff : u.is_staff = false)
    (htp : u.teacher_profile = none) (hsp : u.student_profile = some sp) :
    permitsOn db u RKind.assessment Action.read a =
      (a.class_subject.class_instance.cid == sp.current_class.cid && a.is_published) := by
  simp [permitsOn, permits, inQueryset, objectCheck,
        isAuthenticated_has_permission, assessmentInQueryset, hauth, hstaff, htp, hsp]

/-- Witness for C6: student `stuP` may read the published assessment
of its own class, and may not read the same-teacher unpublished one. -/
theorem student_assessment_read_witness :
    permitsOn db0 studentU RKind.assessment Action.read asmPub = true := by
  rw [student_assessment_read_characterization db0 studentU stuP asmPub rfl rfl rfl rfl]
  decide

/-- Claim C2 (amended): an administrator's `filter_collection` returns
the full input set for every resource kind, and `permits_on` allows
every action on every target, except writes on Grade records by an
administrator who also holds a teacher link: those are allowed exactly
when the linked teacher is the teacher of the grade's assessment's
class-subject. -/
theorem admin_access_characterization (db : DB) (u : UserCtx)
    (hauth : u.is_authenticated = true) (hstaff : u.is_staff = true) :
    (∀ (k : RKind) (l : List (TargetOf k)), filterCollection db u k l = l) ∧
    (∀ (k : RKind) (act : Action) (tgt : TargetOf k),
        (k = RKind.grade → act = Action.write → u.teacher_profile = none) →
        permitsOn db u k act tgt = true) ∧
    (∀ (t : Nat) (g : GradeRec), u.teacher_profile = some t →
        permitsOn db u RKind.grade Action.write g =
          (g.assessment.class_subject.teacher == t)) := by
  refine ⟨?_, ?_, ?_⟩
  · intro k l
    have hp : permits u k Action.read = true := by
      cases k <;>
        simp [permits, isAdminUser_has_permission, isAuthenticated_has_permission,
              canManageAttendance_has_permission, canManageGrades_has_permission,
              canViewStudentData_has_permission, hauth, hstaff]
    rw [filterCollection, if_pos hp]
    cases k <;>
      simp [inQueryset, studentInQueryset, attendanceInQueryset, assessmentInQueryset,
            gradeInQueryset, hstaff]
  · intro k act tgt hexc
    cases k <;> cases act <;>
      first
      | (have htp := hexc rfl rfl
         simp [permitsOn, permits, inQueryset, objectCheck,
               isAdminUser_has_permission, isAuthenticated_has_permission,
               canManageAttendance_has_permission, canManageGrades_has_permission,
               canViewStudentData_has_permission, canViewStudentData_has_object_permission,
               canManageGrades_has_object_permission,
               studentInQueryset, attendanceInQueryset, assessmentInQueryset,
               gradeInQueryset, hauth, hstaff, htp])
      | simp [permitsOn, permits, inQueryset, objectCheck,
              isAdminUser_has_permission, isAuthenticated_has_permission,
              canManageAttendance_has_permission, canManageGrades_has_permission,
              canViewStudentData_has_permission, canViewStudentData_has_object_permission,
              canManageGrades_has_object_permission,
              studentInQueryset, attendanceInQueryset, assessmentInQueryset,
              gradeInQueryset, hauth, hstaff]
  · intro t g htp
    simp [permitsOn, permits, inQueryset, objectCheck,
          canManageGrades_has_permission, canManageGrades_has_object_permission,
          gradeInQueryset, hauth, hstaff, htp]

/-- Witness for C2 (amended) at the plain administrator `adminU`. -/
theorem admin_access_characterization_witness :
    filterCollection db0 adminU RKind.grade [grd0] = [grd0] ∧
    permitsOn db0 adminU RKind.grade Action.write grd0 = true := by
  have h := admin_access_characterization db0 adminU rfl rfl
  exact ⟨h.1 RKind.grade [grd0], h.2.1 RKind.grade Action.write grd0 (fun _ _ => rfl)⟩

/-- Counterexample to claim C2 as stated: `adminTU` is an administrator
(who additionally holds teacher link 10), yet `permits_on` denies its
write on grade `grd0`. -/
theorem admin_teacher_link_grade_write_denied :
    adminTU.is_authenticated = true ∧ adminTU.is_staff = true ∧
    permitsOn db0 adminTU RKind.grade Action.write grd0 = false := by decide

/-- Claim C4 (amended): for a teacher identity the attendance
collection filter keeps exactly the records whose student's current
class has that teacher as class teacher, or whose class-subject is
taught by that teacher; classes reachable only through the teacher's
teaching assignments are not consulted for the first disjunct. -/
theorem attendance_filter_characterization (db : DB) (u : UserCtx) (t : Nat)
    (l : List AttendanceRec)
    (hauth : u.is_authenticated = true) (hstaff : u.is_staff = false)
    (htp : u.teacher_profile = some t) :
    filterCollection db u RKind.attendance l =
      l.filter (fun a =>
        a.student.current_class.class_teacher == some t ||
        (match a.class_subject with
         | some cs => cs.teacher == t
         | none => false)) := by
  simp [filterCollection, permits, canManageAttendance_has_permission, hauth, hstaff, htp,
        inQueryset, attendanceInQueryset]

/-- Witness for C4 (amended): at teacher 10 the filter drops `attB`,
matching the predicate of the amended claim. -/
theorem attendance_filter_characterization_witness :
    filterCollection dbB teacherU RKind.attendance [attB] = [] := by
  rw [attendance_filter_characterization dbB teacherU 10 [attB] rfl rfl rfl]
  decide

/-- Counterexample to claim C4 as stated: record `attB`'s student has
current class in `resolve_teacher_scope` of teacher 10 (via a teaching
assignment), yet the filtered collection omits it. -/
theorem attendance_filter_scope_claim_false :
    teacherU.is_authenticated = true ∧ teacherU.is_staff = false ∧
    teacherU.teacher_profile = some 10 ∧
    classInTeacherScope dbB 10 attB.student.current_class = true ∧
    filterCollection dbB teacherU RKind.attendance [attB] = [] := by decide

/-- Claim C7 (amended): an unauthenticated caller gets the empty set
from `filter_collection` for every resource kind; an authenticated
caller with no staff flag, no teacher link and no student link gets
the empty set for School, Department, Student, Attendance and Grade,
but the full input collection for Subject, Teacher, Class,
Class-Subject, Timetable and Assessment. -/
theorem filter_unrecognized_characterization (db : DB) (u : UserCtx) (k : RKind)
    (l : List (TargetOf k))
    (hu : u.is_authenticated = false ∨
          (u.is_staff = false ∧ u.teacher_profile = none ∧ u.student_profile = none)) :
    filterCollection db u k l =
      (match k with
       | RKind.school => []
       | RKind.department => []
       | RKind.student => []
       | RKind.attendance => []
       | RKind.grade => []
       | _ => if u.is_authenticated then l else []) := by
  rcases hu with h | ⟨h1, h2, h3⟩
  · cases k <;>
      simp [filterCollection, permits, isAdminUser_has_permission,
            isAuthenticated_has_permission, canManageAttendance_has_permission,
            canManageGrades_has_permission, canViewStudentData_has_permission, h]
  · cases k <;> cases hauth : u.is_authenticated <;>
      simp [filterCollection, permits, isAdminUser_has_permission,
            isAuthenticated_has_permission, canManageAttendance_has_permission,
            canManageGrades_has_permission, canViewStudentData_has_permission,
            inQueryset, studentInQueryset, attendanceInQueryset, assessmentInQueryset,
            gradeInQueryset, h1, h2, h3, hauth]

/-- Witness for C7 (amended): the unrecognized caller `parentU` gets
the empty grade collection, and `anonU` the empty subject collection. -/
theorem filter_unrecognized_characterization_witness :
    filterCollection db0 parentU RKind.grade [grd0] = [] ∧
    filterCollection db0 anonU RKind.subject [()] = [] := by
  have h1 := filter_unrecognized_characterization db0 parentU RKind.grade [grd0]
    (Or.inr ⟨rfl, rfl, rfl⟩)
  have h2 := filter_unrecognized_characterization db0 anonU RKind.subject [()]
    (Or.inl rfl)
  exact ⟨h1, h2⟩

/-- Counterexample to claim C7 as stated: the authenticated but
unrecognized caller `parentU` receives the full assessment collection,
unpublished assessment included, not the empty set. -/
theorem unrecognized_assessment_filter_full :
    parentU.is_authenticated = true ∧ parentU.is_staff = false ∧
    parentU.teacher_profile = none ∧ parentU.student_profile = none ∧
    filterCollection db0 parentU RKind.assessment [asmUnpub] = [asmUnpub] := by decide

/-- A successful `roleGroupName` lookup yields one of the four school
group names. -/
theorem roleGroupName_mem (role g : String) (h : roleGroupName role = some g) :
    g ∈ schoolGroupNames := by
  unfold roleGroupName at h
  split_ifs at h <;> injection h with hh <;> subst hh <;> decide

/-- A school group name never survives the removal loop. -/
theorem not_mem_removeSchoolGroups (gs : List String) (g : String)
    (hg : g ∈ schoolGroupNames) : g ∉ removeSchoolGroups gs := by
  simp [removeSchoolGroups, List.mem_filter, hg]

/-- The removal loop is idempotent on group lists. -/
theorem removeSchoolGroups_self (gs : List String) :
    removeSchoolGroups (removeSchoolGroups gs) = removeSchoolGroups gs := by
  simp [removeSchoolGroups, List.filter_filter]

/-- The removal loop distributes over concatenation. -/
theorem removeSchoolGroups_append (gs1 gs2 : List String) :
    removeSchoolGroups (gs1 ++ gs2) = removeSchoolGroups gs1 ++ removeSchoolGroups gs2 := by
  simp [removeSchoolGroups]

/-- The removal loop erases a singleton school group. -/
theorem removeSchoolGroups_singleton (g : String) (hg : g ∈ schoolGroupNames) :
    removeSchoolGroups [g] = [] := by
  simp [removeSchoolGroups, hg]

/-- After removing all school groups and adding `g`, the school-group
members of the list are exactly `[g]`. -/
theorem filter_school_of_assign (gs : List String) (g : String)
    (hg : g ∈ schoolGroupNames) :
    (addGroup (removeSchoolGroups gs) g).filter (fun x => decide (x ∈ schoolGroupNames))
      = [g] := by
  rw [addGroup, if_neg (not_mem_removeSchoolGroups gs g hg)]
  simp [removeSchoolGroups, List.filter_filter, hg]

/-- The remove-then-add cycle is stable under a second identical
cycle. -/
theorem assign_groups_stable (gs : List String) (g : String)
    (hg : g ∈ schoolGroupNames) :
    addGroup (removeSchoolGroups (addGroup (removeSchoolGroups gs) g)) g
      = addGroup (removeSchoolGroups gs) g := by
  have hng := not_mem_removeSchoolGroups gs g hg
  have h1 : addGroup (removeSchoolGroups gs) g = removeSchoolGroups gs ++ [g] := by
    simp [addGroup, hng]
  rw [h1, removeSchoolGroups_append, removeSchoolGroups_self,
      removeSchoolGroups_singleton g hg, List.append_nil, h1]

/-- Claim C8: after a successful role assignment the caller belongs to
exactly one of the four school groups, namely the requested role's
group, regardless of prior memberships; and repeating the same call
succeeds again and leaves the caller's state unchanged. -/
theorem assign_role_exclusive_idempotent (u : GUser) (role g : String)
    (h : roleGroupName role = some g) :
    (assign_user_to_group u role).1 = true ∧
    ((assign_user_to_group u role).2.groups.filter
        (fun x => decide (x ∈ schoolGroupNames))) = [g] ∧
    assign_user_to_group (assign_user_to_group u role).2 role
      = (true, (assign_user_to_group u role).2) := by
  have hg := roleGroupName_mem role g h
  refine ⟨by simp [assign_user_to_group, h], ?_, ?_⟩
  · simp only [assign_user_to_group, h]
    exact filter_school_of_assign u.groups g hg
  · simp only [assign_user_to_group, h]
    rw [assign_groups_stable u.groups g hg]
    by_cases hadm : role = adminRoleTag <;> simp [hadm]

/-- Sample user in the Parents group and an unrelated club group. -/
def u8 : GUser := { groups := [parentsGroupName, "Chess Club"], is_staff := false }

/-- Witness for C8 at `u8` being reassigned to the teacher role. -/
theorem assign_role_exclusive_idempotent_witness :
    (assign_user_to_group u8 teacherRoleTag).1 = true ∧
    ((assign_user_to_group u8 teacherRoleTag).2.groups.filter
        (fun x => decide (x ∈ schoolGroupNames))) = [teachersGroupName] ∧
    assign_user_to_group (assign_user_to_group u8 teacherRoleTag).2 teacherRoleTag
      = (true, (assign_user_to_group u8 teacherRoleTag).2) :=
  assign_role_exclusive_idempotent u8 teacherRoleTag teachersGroupName (by decide)

/-- Claim C9: an unrecognized role tag makes `assign_user_to_group`
return failure and leave the caller's groups and staff flag exactly as
they were. -/
theorem assign_role_unrecognized_no_mutation (u : GUser) (role : String)
    (h : roleGroupName role = none) :
    assign_user_to_group u role = (false, u) := by
  simp [assign_user_to_group, h]

/-- Sample user holding the Teachers group. -/
def u9 : GUser := { groups := [teachersGroupName], is_staff := false }

/-- The unrecognized role tag of the spec's scenario 3. -/
def superuserRoleTag : String := "superuser"

/-- Witness for C9: assigning the unrecognized tag fails without
mutation. -/
theorem assign_role_unrecognized_no_mutation_witness :
    assign_user_to_group u9 superuserRoleTag = (false, u9) :=
  assign_role_unrecognized_no_mutation u9 superuserRoleTag (by decide)

/-- Claim C10: a staff caller reassigned to any recognized non-admin
role keeps the staff flag, so it still passes the administrator check
`IsAdminUser.has_permission` under any authenticated identity built
from the resulting flag. -/
theorem assign_nonadmin_keeps_staff_flag (u : GUser) (role g : String)
    (tp : Option Nat) (sp : Option StudentRec) (uid : Nat)
    (hstaff : u.is_staff = true) (h : roleGroupName role = some g)
    (hna : role ≠ adminRoleTag) :
    (assign_user_to_group u role).1 = true ∧
    (assign_user_to_group u role).2.is_staff = true ∧
    isAdminUser_has_permission
      { is_authenticated := true, is_staff := (assign_user_to_group u role).2.is_staff,
        teacher_profile := tp, student_profile := sp, user_id := uid } = true := by
  have h2 : (assign_user_to_group u role).2.is_staff = true := by
    simp [assign_user_to_group, h, hna, hstaff]
  exact ⟨by simp [assign_user_to_group, h], h2,
    by simp [isAdminUser_has_permission, h2]⟩

/-- Sample staff user in the admin group. -/
def u10 : GUser := { groups := [adminsGroupName], is_staff := true }

/-- Witness for C10: the staff caller `u10` reassigned to the student
role keeps the staff flag and still passes the administrator check. -/
theorem assign_nonadmin_keeps_staff_flag_witness :
    (assign_user_to_group u10 studentRoleTag).1 = true ∧
    (assign_user_to_group u10 studentRoleTag).2.is_staff = true ∧
    isAdminUser_has_permission
      { is_authenticated := true, is_staff := (assign_user_to_group u10 studentRoleTag).2.is_staff,
        teacher_profile := none, student_profile := none, user_id := 0 } = true :=
  assign_nonadmin_keeps_staff_flag u10 studentRoleTag studentsGroupName none none 0
    (by decide) (by decide) (by decide)

end SchoolMgmt
